import Mathlib

/-!
Verification of the loan-approval inference pipeline in `app.py`
(Skyline Financial Streamlit application).

The embedding models the step-5 inference path (lines 307-367 of
`app.py`): normalization of the 0/1 radio indices to category strings,
construction of the single-row `input_data` frame, categorical encoding
via the loaded label encoders, the classifier `predict` /
`predict_proba` calls, target-label decoding, and the displayed result.
It also models `load_artifacts` (lines 18-31), the session-state
default initialization (lines 114-129) and the `restart` handler
(lines 133-135).

The classifier, encoder tables and target encoder are external pickled
artifacts; they are modelled abstractly (the classifier as a pair of
possibly-failing functions, the encoders as lists of classes with
exact-match index lookup, matching sklearn `LabelEncoder.transform` /
`inverse_transform` semantics). Probabilities are modelled as rationals.
-/

namespace LoanApp

/-- A value held in one column of the single-row `input_data` frame:
either a number, or a raw categorical string before encoding. -/
inductive FeatureValue where
  | num : Int → FeatureValue
  | str : String → FeatureValue
deriving DecidableEq, Repr

/-- The eleven form values held in `st.session_state` when step 5 of the
wizard runs (keys `dependents`, `education`, `employed`, `income`,
`bank_assets`, `cibil`, `residential`, `commercial`, `luxury`,
`loan_amt`, `loan_term`).  `education` and `employed` are the 0/1 radio
indices. -/
structure FormState where
  dependents : Int
  education : Int
  employed : Int
  income : Int
  bank_assets : Int
  cibil : Int
  residential : Int
  commercial : Int
  luxury : Int
  loan_amt : Int
  loan_term : Int
deriving DecidableEq, Repr

/-- Line 316: `edu_str = "Graduate" if st.session_state.education == 0
else "Not Graduate"`. -/
def edu_str (education : Int) : String :=
  if education = 0 then "Graduate" else "Not Graduate"

/-- Line 317: `emp_str = "No" if st.session_state.employed == 0 else
"Yes"` (0 = Salaried, i.e. not self-employed). -/
def emp_str (employed : Int) : String :=
  if employed = 0 then "No" else "Yes"

/-- Lines 319-331: the single-row `input_data` DataFrame, as an ordered
association list of column name to value, in exactly the order the
columns are written in the source. -/
def input_data (s : FormState) : List (String × FeatureValue) :=
  [("no_of_dependents", .num s.dependents),
   ("education", .str (edu_str s.education)),
   ("self_employed", .str (emp_str s.employed)),
   ("income_annum", .num s.income),
   ("loan_amount", .num s.loan_amt),
   ("loan_term", .num s.loan_term),
   ("cibil_score", .num s.cibil),
   ("residential_assets_value", .num s.residential),
   ("commercial_assets_value", .num s.commercial),
   ("luxury_assets_value", .num s.luxury),
   ("bank_asset_value", .num s.bank_assets)]

/-- A fitted sklearn `LabelEncoder` is determined by its ordered list of
known classes. -/
structure LabelEncoder where
  classes : List String
deriving DecidableEq, Repr

/-- Index of the first exact occurrence of `v` in the class list, or
`none` when absent. -/
def lookupIdx : List String → String → Option Nat
  | [], _ => none
  | c :: cs, v => if c = v then some 0 else (lookupIdx cs v).map (· + 1)

/-- `LabelEncoder.transform` on a single value: the index of the value
in the class list, by exact string match (sklearn raises on an unseen
label, modelled as `none`; no trimming or other normalization is
applied). -/
def LabelEncoder.transform (e : LabelEncoder) (v : String) : Option Nat :=
  lookupIdx e.classes v

/-- The `feature_encoders` dict loaded from `feature_encoders.pkl`,
holding the two categorical encoder tables. -/
structure FeatureEncoders where
  education : LabelEncoder
  self_employed : LabelEncoder

/-- One column-assignment statement of lines 335-336, e.g.
`input_data['education'] = feature_encoders['education']
.transform(input_data['education'])`: the value of the named column is
replaced by its integer code.  Reading an absent column, transforming a
numeric value against a string class list, or an unseen label all raise
in pandas/sklearn, modelled as `none`. -/
def transformColumn (enc : LabelEncoder) (name : String) :
    List (String × FeatureValue) → Option (List (String × FeatureValue))
  | [] => none
  | (n, v) :: rest =>
    if n = name then
      match v with
      | .str sv =>
        match enc.transform sv with
        | some c => some ((n, .num (c : Int)) :: rest)
        | none => none
      | .num _ => none
    else
      (transformColumn enc name rest).map (fun r => (n, v) :: r)

/-- Lines 335-336: encode the `education` column, then the
`self_employed` column.  Fails (exception caught at line 365) when
either label is not in its table. -/
def encodeStep (fe : FeatureEncoders) (row : List (String × FeatureValue)) :
    Option (List (String × FeatureValue)) :=
  (transformColumn fe.education "education" row).bind
    (transformColumn fe.self_employed "self_employed")

/-- The classifier loaded from `random_forest_model.pkl`, used only
through `predict` (one class id for the one row) and `predict_proba`
(one probability row).  Either call may raise, modelled as
`Except.error`. -/
structure Classifier where
  predict : List (String × FeatureValue) → Except String Nat
  predict_proba : List (String × FeatureValue) → Except String (List ℚ)

/-- The target encoder loaded from `target_encoder.pkl`. -/
structure TargetEncoder where
  classes : List String
deriving DecidableEq, Repr

/-- Line 341: `target_encoder.inverse_transform(pred)[0]` — the class
label at the predicted index (`none` models the IndexError on an
out-of-range class id). -/
def TargetEncoder.inverse_transform (t : TargetEncoder) (i : Nat) : Option String :=
  t.classes.get? i

/-- `np.max` over the (single-row) probability array; `none` models the
ValueError `np.max` raises on an empty array. -/
def np_max : List ℚ → Option ℚ
  | [] => none
  | x :: xs =>
    match np_max xs with
    | none => some x
    | some m => some (max x m)

/-- Python `str.strip()` with no argument: remove leading and trailing
whitespace characters. -/
def strip (s : String) : String :=
  ⟨((s.data.dropWhile Char.isWhitespace).reverse.dropWhile Char.isWhitespace).reverse⟩

/-- The externally visible outcomes of the step-5 result screen, in the
order the source emits them. -/
inductive UIEvent where
  | modelNotFound
  | approvedCard
  | rejectedCard
  | confMetric (conf : ℚ)
  | errorMsg
deriving DecidableEq, Repr

/-- Lines 345-359: the decision card shown for a decoded label — the
APPROVED card exactly when `status.strip() == "Approved"`, the
REJECTED card for every other label. -/
def statusCard (status : String) : UIEvent :=
  if strip status = "Approved" then .approvedCard else .rejectedCard

/-- Lines 307-367: the whole step-5 result screen, as the list of
outcome events it emits.  `st.error("Model not found ...")` when the
model is `None`; otherwise encode, predict, decode inside the `try`
block, with any raise caught at line 365 and shown as an error; on
success, the decision card (lines 345-359) then the confidence metric
`conf = np.max(prob) * 100` (lines 362-363). -/
def run_step5 (mo : Option Classifier) (fe : Option FeatureEncoders)
    (te : Option TargetEncoder) (s : FormState) : List UIEvent :=
  match mo with
  | none => [.modelNotFound]
  | some m =>
    match fe with
    | none => [.errorMsg]
    | some encs =>
      match encodeStep encs (input_data s) with
      | none => [.errorMsg]
      | some encoded =>
        match m.predict encoded with
        | .error _ => [.errorMsg]
        | .ok pred =>
          match m.predict_proba encoded with
          | .error _ => [.errorMsg]
          | .ok prob =>
            match te with
            | none => [.errorMsg]
            | some tenc =>
              match tenc.inverse_transform pred with
              | none => [.errorMsg]
              | some status =>
                match np_max prob with
                | none => [statusCard status, .errorMsg]
                | some mx => [statusCard status, .confMetric (mx * 100)]

/-- State of one pickled artifact file on disk: present with loadable
content, absent (`FileNotFoundError` on open), or present but
unreadable/corrupt (any other exception while opening or unpickling). -/
inductive FileState (α : Type) where
  | present : α → FileState α
  | missing : FileState α
  | unreadable : FileState α

/-- Lines 18-29: `load_artifacts` opens the three pickle files in
order inside one `try` whose only handler is
`except FileNotFoundError: return None, None, None`.  A missing file is
recovered to the all-`None` triple; any other exception escapes the
function (modelled as `Except.error ()`). -/
def load_artifacts (mf : FileState Classifier) (ef : FileState FeatureEncoders)
    (tf : FileState TargetEncoder) :
    Except Unit (Option Classifier × Option FeatureEncoders × Option TargetEncoder) :=
  match mf with
  | .unreadable => .error ()
  | .missing => .ok (none, none, none)
  | .present m =>
    match ef with
    | .unreadable => .error ()
    | .missing => .ok (none, none, none)
    | .present e =>
      match tf with
      | .unreadable => .error ()
      | .missing => .ok (none, none, none)
      | .present t => .ok (some m, some e, some t)

/-- `st.session_state` as step 5 sees it: the wizard step plus the
eleven form keys; `none` models a key not yet present in the session
state. -/
structure SessionState where
  step : Option Int
  dependents : Option Int
  education : Option Int
  employed : Option Int
  income : Option Int
  bank_assets : Option Int
  cibil : Option Int
  residential : Option Int
  commercial : Option Int
  luxury : Option Int
  loan_amt : Option Int
  loan_term : Option Int
deriving DecidableEq, Repr

/-- Lines 121-129 for one key: `if key not in st.session_state:` assign
the default, otherwise keep the stored value. -/
def initKey (v : Option Int) (d : Int) : Option Int :=
  match v with
  | some x => some x
  | none => some d

/-- Lines 114-129: session-state initialization run at the top of every
script rerun — step defaults to 1, `cibil` to 700, `loan_term` to 20,
`income` to 5000000, `loan_amt` to 10000000, every other form key
to 0; keys already present are left untouched. -/
def initSession (s : SessionState) : SessionState :=
  { step := initKey s.step 1,
    dependents := initKey s.dependents 0,
    education := initKey s.education 0,
    employed := initKey s.employed 0,
    income := initKey s.income 5000000,
    bank_assets := initKey s.bank_assets 0,
    cibil := initKey s.cibil 700,
    residential := initKey s.residential 0,
    commercial := initKey s.commercial 0,
    luxury := initKey s.luxury 0,
    loan_amt := initKey s.loan_amt 10000000,
    loan_term := initKey s.loan_term 20 }

/-- Lines 133-135: the `restart` handler behind "Start New
Application" sets `st.session_state.step = 1` and reruns; it touches no
other session key. -/
def restart (s : SessionState) : SessionState :=
  { s with step := some 1 }

/-- The education encoder table as the artifact is documented: the two
classes {Graduate, Not Graduate} in sklearn's sorted order.  Used as a
concrete table in witnesses and counterexamples. -/
def eduEncoder : LabelEncoder := ⟨["Graduate", "Not Graduate"]⟩

/-- The self-employment encoder table: classes {No, Yes} in sorted
order. -/
def empEncoder : LabelEncoder := ⟨["No", "Yes"]⟩

/-- A concrete `feature_encoders` value built from the two documented
tables. -/
def demoEncoders : FeatureEncoders := ⟨eduEncoder, empEncoder⟩

/-- An education table carrying the misspelt class "Graduated": a
concrete table in which the pipeline's clean literal "Graduate" is an
unknown category. -/
def typoEncoders : FeatureEncoders := ⟨⟨["Graduated", "Not Graduate"]⟩, empEncoder⟩

/-- The target encoder table: classes {Approved, Rejected} in sorted
order. -/
def loanTargetEncoder : TargetEncoder := ⟨["Approved", "Rejected"]⟩

/-- The form state holding the documented session defaults (lines
124-129). -/
def defaultForm : FormState :=
  { dependents := 0, education := 0, employed := 0, income := 5000000,
    bank_assets := 0, cibil := 700, residential := 0, commercial := 0,
    luxury := 0, loan_amt := 10000000, loan_term := 20 }

/-- A concrete stand-in classifier for witnesses: always predicts class
0 with probability row [3/4, 1/4]. -/
def demoClassifier : Classifier :=
  ⟨fun _ => .ok 0, fun _ => .ok [3 / 4, 1 / 4]⟩

/-- The encoded feature row for `defaultForm` under the documented
tables. -/
def encodedDefault : List (String × FeatureValue) :=
  [("no_of_dependents", .num 0),
   ("education", .num 0),
   ("self_employed", .num 0),
   ("income_annum", .num 5000000),
   ("loan_amount", .num 10000000),
   ("loan_term", .num 20),
   ("cibil_score", .num 700),
   ("residential_assets_value", .num 0),
   ("commercial_assets_value", .num 0),
   ("luxury_assets_value", .num 0),
   ("bank_asset_value", .num 0)]

/-- A concrete session state in which every key is present and every
form value differs from its documented default. -/
def demoSession : SessionState :=
  { step := some 4, dependents := some 3, education := some 1,
    employed := some 1, income := some 123, bank_assets := some 7,
    cibil := some 555, residential := some 11, commercial := some 12,
    luxury := some 13, loan_amt := some 999, loan_term := some 5 }

end LoanApp

namespace LoanApp

/-- `np.max` of an empty array is the only failing case. -/
theorem np_max_eq_none {l : List ℚ} (h : np_max l = none) : l = [] := by
  cases l with
  | nil => rfl
  | cons x xs =>
    exfalso
    rcases hx : np_max xs with _ | mx <;> simp [np_max, hx] at h

/-- The value `np.max` returns is an entry of the array. -/
theorem np_max_mem {l : List ℚ} {m : ℚ} (h : np_max l = some m) : m ∈ l := by
  induction l generalizing m with
  | nil => simp [np_max] at h
  | cons x xs ih =>
    rcases hx : np_max xs with _ | mx
    · simp only [np_max, hx, Option.some.injEq] at h
      subst h
      exact List.mem_cons_self x xs
    · simp only [np_max, hx, Option.some.injEq] at h
      subst h
      rcases max_choice x mx with hmax | hmax
      · rw [hmax]; exact List.mem_cons_self x xs
      · rw [hmax]; exact List.mem_cons_of_mem x (ih hx)

/-- The value `np.max` returns bounds every entry of the array. -/
theorem le_np_max {l : List ℚ} {m : ℚ} (h : np_max l = some m) :
    ∀ x ∈ l, x ≤ m := by
  induction l generalizing m with
  | nil => simp
  | cons x xs ih =>
    intro y hy
    rcases hx : np_max xs with _ | mx
    · simp only [np_max, hx, Option.some.injEq] at h
      subst h
      have hxs : xs = [] := np_max_eq_none hx
      subst hxs
      simp only [List.mem_singleton] at hy
      subst hy
      exact le_refl y
    · simp only [np_max, hx, Option.some.injEq] at h
      subst h
      rcases List.mem_cons.mp hy with rfl | hy'
      · exact le_max_left _ _
      · exact le_trans (ih hx y hy') (le_max_right _ _)

/-- A nonempty probability row always has a maximum. -/
theorem np_max_isSome {l : List ℚ} (h : l ≠ []) : ∃ m, np_max l = some m := by
  cases l with
  | nil => exact absurd rfl h
  | cons x xs =>
    rcases hx : np_max xs with _ | mx
    · exact ⟨x, by simp [np_max, hx]⟩
    · exact ⟨max x mx, by simp [np_max, hx]⟩

/-- Exact lookup misses every value absent from the class list. -/
theorem lookupIdx_eq_none {l : List String} {v : String} (h : v ∉ l) :
    lookupIdx l v = none := by
  induction l with
  | nil => rfl
  | cons c cs ih =>
    simp only [List.mem_cons, not_or] at h
    have hne : c ≠ v := fun hc => h.1 hc.symm
    simp [lookupIdx, hne, ih h.2]

/-- **C5** — The normalization of the UI's 0/1 radio indices: index 0
maps to the lexicographically first enumeration value and index 1 to
the second — `education`: 0 ↦ "Graduate", 1 ↦ "Not Graduate";
`self_employed`: 0 ↦ "No", 1 ↦ "Yes". -/
theorem c5_index_mapping :
    edu_str 0 = "Graduate" ∧ edu_str 1 = "Not Graduate" ∧
    emp_str 0 = "No" ∧ emp_str 1 = "Yes" ∧
    "Graduate" < "Not Graduate" ∧ "No" < "Yes" := by
  refine ⟨rfl, rfl, rfl, rfl, ?_, ?_⟩ <;>
    rw [String.lt_iff_toList_lt] <;> decide

/-- **C1** — Whenever both categorical lookups succeed, the encoding
step applied to the `input_data` row yields a single row of exactly
eleven entries, in the fixed column order of the `input_data`
construction, with the two categorical columns replaced by their
integer codes and the nine numeric columns passed through unchanged. -/
theorem c1_feature_vector (s : FormState) (encs : FeatureEncoders) (ce se : Nat)
    (h1 : encs.education.transform (edu_str s.education) = some ce)
    (h2 : encs.self_employed.transform (emp_str s.employed) = some se) :
    ∃ r, encodeStep encs (input_data s) = some r ∧ r.length = 11 ∧
      r = [("no_of_dependents", .num s.dependents),
           ("education", .num (ce : Int)),
           ("self_employed", .num (se : Int)),
           ("income_annum", .num s.income),
           ("loan_amount", .num s.loan_amt),
           ("loan_term", .num s.loan_term),
           ("cibil_score", .num s.cibil),
           ("residential_assets_value", .num s.residential),
           ("commercial_assets_value", .num s.commercial),
           ("luxury_assets_value", .num s.luxury),
           ("bank_asset_value", .num s.bank_assets)] := by
  refine ⟨_, ?_, ?_, rfl⟩
  · simp [encodeStep, input_data, transformColumn, h1, h2]
  · rfl

/-- Witness for C1 at the default form values and the documented
encoder tables. -/
theorem c1_feature_vector_witness :
    demoEncoders.education.transform (edu_str defaultForm.education) = some 0 ∧
    demoEncoders.self_employed.transform (emp_str defaultForm.employed) = some 0 ∧
    ∃ r, encodeStep demoEncoders (input_data defaultForm) = some r ∧ r.length = 11 ∧
      r = [("no_of_dependents", .num defaultForm.dependents),
           ("education", .num ((0 : Nat) : Int)),
           ("self_employed", .num ((0 : Nat) : Int)),
           ("income_annum", .num defaultForm.income),
           ("loan_amount", .num defaultForm.loan_amt),
           ("loan_term", .num defaultForm.loan_term),
           ("cibil_score", .num defaultForm.cibil),
           ("residential_assets_value", .num defaultForm.residential),
           ("commercial_assets_value", .num defaultForm.commercial),
           ("luxury_assets_value", .num defaultForm.luxury),
           ("bank_asset_value", .num defaultForm.bank_assets)] :=
  ⟨by decide, by decide,
   c1_feature_vector defaultForm demoEncoders 0 0 (by decide) (by decide)⟩

/-- **C3 counterexample** — the claim is false on the code: the
encoding step does not trim, so the untrimmed string " Graduate "
(which differs from the known category "Graduate" only by leading and
trailing whitespace) fails the lookup instead of yielding the canonical
code 0. -/
theorem c3_counterexample :
    strip " Graduate " = "Graduate" ∧
    eduEncoder.transform "Graduate" = some 0 ∧
    eduEncoder.transform " Graduate " = none := by
  decide

/-- **C3 (amended)** — no trimming is performed before the encoder
lookup: a string whose stripped form is a known category, but which is
not itself exactly equal to a class entry, fails to encode rather than
producing the canonical code. -/
theorem c3_no_trimming (e : LabelEncoder) (s : String)
    (_h1 : strip s ∈ e.classes) (h2 : s ∉ e.classes) :
    e.transform s = none :=
  lookupIdx_eq_none h2

/-- Witness for the amended C3 at the untrimmed string " Graduate ". -/
theorem c3_no_trimming_witness :
    strip " Graduate " ∈ eduEncoder.classes ∧
    " Graduate " ∉ eduEncoder.classes ∧
    eduEncoder.transform " Graduate " = none :=
  ⟨by decide, by decide, c3_no_trimming eduEncoder " Graduate " (by decide) (by decide)⟩

/-- **C4** — When either categorical value is absent from its encoder
table, the step-5 run reports the failure as the single error event: no
default code is substituted, and the outcome is the same for every
classifier, so the classifier's predict call is never attempted. -/
theorem c4_unknown_category (encs : FeatureEncoders) (te : Option TargetEncoder)
    (s : FormState) (m : Classifier)
    (h : edu_str s.education ∉ encs.education.classes ∨
         emp_str s.employed ∉ encs.self_employed.classes) :
    run_step5 (some m) (some encs) te s = [UIEvent.errorMsg] := by
  have henc : encodeStep encs (input_data s) = none := by
    rcases h with h | h
    · have ht : encs.education.transform (edu_str s.education) = none :=
        lookupIdx_eq_none h
      simp [encodeStep, input_data, transformColumn, ht]
    · have ht : encs.self_employed.transform (emp_str s.employed) = none :=
        lookupIdx_eq_none h
      rcases heq : encs.education.transform (edu_str s.education) with _ | c
      · simp [encodeStep, input_data, transformColumn, heq]
      · simp [encodeStep, input_data, transformColumn, heq, ht]
  simp [run_step5, henc]

/-- Witness for C4: with the misspelt table {"Graduated", "Not
Graduate"}, the clean literal "Graduate" is unknown and the run shows
only the error message. -/
theorem c4_unknown_category_witness :
    edu_str defaultForm.education ∉ typoEncoders.education.classes ∧
    run_step5 (some demoClassifier) (some typoEncoders) (some loanTargetEncoder)
      defaultForm = [UIEvent.errorMsg] :=
  ⟨by decide,
   c4_unknown_category typoEncoders (some loanTargetEncoder) defaultForm
     demoClassifier (Or.inl (by decide))⟩

/-- **C2** — On a successful inference, the confidence is the maximum
entry of the probability row returned by `predict_proba`: it is an
entry of the row, bounds every entry, lies in [0, 1] whenever the row
is a vector of probabilities, and the displayed metric is exactly this
maximum scaled to a percentage. -/
theorem c2_confidence (encs : FeatureEncoders) (m : Classifier)
    (tenc : TargetEncoder) (s : FormState)
    (encoded : List (String × FeatureValue)) (pred : Nat) (prob : List ℚ)
    (status : String) (mx : ℚ)
    (h1 : encodeStep encs (input_data s) = some encoded)
    (h2 : m.predict encoded = Except.ok pred)
    (h3 : m.predict_proba encoded = Except.ok prob)
    (h4 : tenc.inverse_transform pred = some status)
    (h5 : ∀ x ∈ prob, 0 ≤ x ∧ x ≤ 1)
    (hmx : np_max prob = some mx) :
    0 ≤ mx ∧ mx ≤ 1 ∧ mx ∈ prob ∧ (∀ x ∈ prob, x ≤ mx) ∧
      run_step5 (some m) (some encs) (some tenc) s =
        [statusCard status, UIEvent.confMetric (mx * 100)] := by
  have hmem := np_max_mem hmx
  refine ⟨(h5 mx hmem).1, (h5 mx hmem).2, hmem, le_np_max hmx, ?_⟩
  simp [run_step5, h1, h2, h3, h4, hmx]

/-- Witness for C2 at the default form, documented tables and the
stand-in classifier with probability row [3/4, 1/4]. -/
theorem c2_confidence_witness :
    encodeStep demoEncoders (input_data defaultForm) = some encodedDefault ∧
    demoClassifier.predict encodedDefault = Except.ok 0 ∧
    demoClassifier.predict_proba encodedDefault = Except.ok [3 / 4, 1 / 4] ∧
    loanTargetEncoder.inverse_transform 0 = some "Approved" ∧
    (∀ x ∈ [(3 : ℚ) / 4, 1 / 4], 0 ≤ x ∧ x ≤ 1) ∧
    np_max [(3 : ℚ) / 4, 1 / 4] = some (3 / 4) ∧
    (0 ≤ (3 : ℚ) / 4 ∧ (3 : ℚ) / 4 ≤ 1 ∧ (3 : ℚ) / 4 ∈ [(3 : ℚ) / 4, 1 / 4] ∧
      (∀ x ∈ [(3 : ℚ) / 4, 1 / 4], x ≤ (3 : ℚ) / 4) ∧
      run_step5 (some demoClassifier) (some demoEncoders) (some loanTargetEncoder)
        defaultForm = [statusCard "Approved", UIEvent.confMetric ((3 : ℚ) / 4 * 100)]) :=
  ⟨by decide, rfl, rfl, by decide,
   by
     intro x hx
     simp only [List.mem_cons, List.not_mem_nil, or_false] at hx
     rcases hx with rfl | rfl <;> norm_num,
   by norm_num [np_max],
   c2_confidence demoEncoders demoClassifier loanTargetEncoder defaultForm
     encodedDefault 0 [3 / 4, 1 / 4] "Approved" (3 / 4) (by decide) rfl rfl
     (by decide)
     (by
       intro x hx
       simp only [List.mem_cons, List.not_mem_nil, or_false] at hx
       rcases hx with rfl | rfl <;> norm_num)
     (by norm_num [np_max])⟩

/-- **C6 counterexample** — the claim is false on the code for an
unreadable (present but failing) artifact: `load_artifacts` catches
only `FileNotFoundError`, so an unreadable model file makes the load
raise instead of recovering to the null pipeline state. -/
theorem c6_counterexample :
    load_artifacts (FileState.unreadable) (FileState.missing) (FileState.missing) =
      Except.error () ∧
    load_artifacts (FileState.unreadable) (FileState.missing) (FileState.missing) ≠
      Except.ok (none, none, none) :=
  ⟨rfl, by simp [load_artifacts]⟩

/-- **C6 (amended)** — when an artifact file is absent (and no
earlier-opened file is unreadable), loading recovers to the all-`None`
pipeline state and the step-5 screen answers every request with the
model-not-found report instead of a decision; an unreadable file, by
contrast, is not recovered (see the counterexample). -/
theorem c6_missing_artifacts (mf : FileState Classifier)
    (ef : FileState FeatureEncoders) (tf : FileState TargetEncoder)
    (s : FormState)
    (h : mf = FileState.missing ∨
         (∃ m, mf = FileState.present m ∧ ef = FileState.missing) ∨
         (∃ m e, mf = FileState.present m ∧ ef = FileState.present e ∧
            tf = FileState.missing)) :
    load_artifacts mf ef tf = Except.ok (none, none, none) ∧
    run_step5 none none none s = [UIEvent.modelNotFound] := by
  constructor
  · rcases h with rfl | ⟨m, rfl, rfl⟩ | ⟨m, e, rfl, rfl, rfl⟩ <;> rfl
  · rfl

/-- Witness for the amended C6 with all three artifact files absent. -/
theorem c6_missing_artifacts_witness :
    (FileState.missing : FileState Classifier) = FileState.missing ∧
    (load_artifacts FileState.missing FileState.missing FileState.missing =
       Except.ok (none, none, none) ∧
     run_step5 none none none defaultForm = [UIEvent.modelNotFound]) :=
  ⟨rfl,
   c6_missing_artifacts FileState.missing FileState.missing FileState.missing
     defaultForm (Or.inl rfl)⟩

/-- **C7** — On each of the failure modes the claim names (artifacts
unavailable, unknown category making the encode step fail, the
classifier's predict or predict-probability call raising), the step-5
screen shows only the model-not-found report or the error message: the
error state is a different constructor from the decision cards, and
neither the APPROVED nor the REJECTED card is ever emitted. -/
theorem c7_no_default_decision (mo : Option Classifier)
    (fe : Option FeatureEncoders) (te : Option TargetEncoder) (s : FormState)
    (h : mo = none ∨
         (∃ encs, fe = some encs ∧ encodeStep encs (input_data s) = none) ∨
         (∃ m encs r msg, mo = some m ∧ fe = some encs ∧
            encodeStep encs (input_data s) = some r ∧
            m.predict r = Except.error msg) ∨
         (∃ m encs r msg, mo = some m ∧ fe = some encs ∧
            encodeStep encs (input_data s) = some r ∧
            m.predict_proba r = Except.error msg)) :
    (run_step5 mo fe te s = [UIEvent.modelNotFound] ∨
     run_step5 mo fe te s = [UIEvent.errorMsg]) ∧
    UIEvent.approvedCard ∉ run_step5 mo fe te s ∧
    UIEvent.rejectedCard ∉ run_step5 mo fe te s := by
  have hrun : run_step5 mo fe te s = [UIEvent.modelNotFound] ∨
      run_step5 mo fe te s = [UIEvent.errorMsg] := by
    rcases h with rfl | ⟨encs, rfl, henc⟩ | ⟨m, encs, r, msg, rfl, rfl, henc, hp⟩ |
      ⟨m, encs, r, msg, rfl, rfl, henc, hp⟩
    · left; rfl
    · cases mo with
      | none => left; rfl
      | some m => right; simp [run_step5, henc]
    · right; simp [run_step5, henc, hp]
    · right
      rcases hpred : m.predict r with msg2 | pred
      · simp [run_step5, henc, hpred]
      · simp [run_step5, henc, hpred, hp]
  refine ⟨hrun, ?_, ?_⟩ <;> rcases hrun with h' | h' <;> simp [h']

/-- Witness for C7 in the unavailable-artifacts case. -/
theorem c7_no_default_decision_witness :
    (none : Option Classifier) = none ∧
    ((run_step5 none (some demoEncoders) (some loanTargetEncoder) defaultForm =
        [UIEvent.modelNotFound] ∨
      run_step5 none (some demoEncoders) (some loanTargetEncoder) defaultForm =
        [UIEvent.errorMsg]) ∧
     UIEvent.approvedCard ∉
       run_step5 none (some demoEncoders) (some loanTargetEncoder) defaultForm ∧
     UIEvent.rejectedCard ∉
       run_step5 none (some demoEncoders) (some loanTargetEncoder) defaultForm) :=
  ⟨rfl,
   c7_no_default_decision none (some demoEncoders) (some loanTargetEncoder)
     defaultForm (Or.inl rfl)⟩

/-- **C8** — Determinism of the step-5 pipeline: two runs with the same
loaded classifier, encoder tables and target decoder, and identical
values for all eleven raw fields, emit identical outcomes; the run is a
pure function of exactly these arguments, with no hidden state. -/
theorem c8_deterministic (mo : Option Classifier) (fe : Option FeatureEncoders)
    (te : Option TargetEncoder) (s1 s2 : FormState)
    (h1 : s1.dependents = s2.dependents) (h2 : s1.education = s2.education)
    (h3 : s1.employed = s2.employed) (h4 : s1.income = s2.income)
    (h5 : s1.bank_assets = s2.bank_assets) (h6 : s1.cibil = s2.cibil)
    (h7 : s1.residential = s2.residential) (h8 : s1.commercial = s2.commercial)
    (h9 : s1.luxury = s2.luxury) (h10 : s1.loan_amt = s2.loan_amt)
    (h11 : s1.loan_term = s2.loan_term) :
    run_step5 mo fe te s1 = run_step5 mo fe te s2 := by
  have hs : s1 = s2 := by
    cases s1
    cases s2
    simp_all
  rw [hs]

/-- Witness for C8 at the default form values. -/
theorem c8_deterministic_witness :
    defaultForm.dependents = defaultForm.dependents ∧
    run_step5 (some demoClassifier) (some demoEncoders) (some loanTargetEncoder)
        defaultForm =
      run_step5 (some demoClassifier) (some demoEncoders) (some loanTargetEncoder)
        defaultForm :=
  ⟨rfl,
   c8_deterministic (some demoClassifier) (some demoEncoders)
     (some loanTargetEncoder) defaultForm defaultForm
     rfl rfl rfl rfl rfl rfl rfl rfl rfl rfl rfl⟩

/-- **C9** — The `restart` handler sets only the wizard step back to 1:
every form key present in the session keeps its value, and the
default-initialization run on the next script rerun leaves those
present keys at the previous application's values instead of the
documented defaults. -/
theorem c9_restart_keeps_form (s : SessionState)
    (d ed em inc ba ci re co lu la lt : Int)
    (h1 : s.dependents = some d) (h2 : s.education = some ed)
    (h3 : s.employed = some em) (h4 : s.income = some inc)
    (h5 : s.bank_assets = some ba) (h6 : s.cibil = some ci)
    (h7 : s.residential = some re) (h8 : s.commercial = some co)
    (h9 : s.luxury = some lu) (h10 : s.loan_amt = some la)
    (h11 : s.loan_term = some lt) :
    (restart s).step = some 1 ∧
    (restart s).dependents = some d ∧ (restart s).education = some ed ∧
    (restart s).employed = some em ∧ (restart s).income = some inc ∧
    (restart s).bank_assets = some ba ∧ (restart s).cibil = some ci ∧
    (restart s).residential = some re ∧ (restart s).commercial = some co ∧
    (restart s).luxury = some lu ∧ (restart s).loan_amt = some la ∧
    (restart s).loan_term = some lt ∧
    (initSession (restart s)).dependents = some d ∧
    (initSession (restart s)).education = some ed ∧
    (initSession (restart s)).employed = some em ∧
    (initSession (restart s)).income = some inc ∧
    (initSession (restart s)).bank_assets = some ba ∧
    (initSession (restart s)).cibil = some ci ∧
    (initSession (restart s)).residential = some re ∧
    (initSession (restart s)).commercial = some co ∧
    (initSession (restart s)).luxury = some lu ∧
    (initSession (restart s)).loan_amt = some la ∧
    (initSession (restart s)).loan_term = some lt := by
  simp [restart, initSession, initKey, h1, h2, h3, h4, h5, h6, h7, h8, h9,
    h10, h11]

/-- Witness for C9 at a session whose form values all differ from the
documented defaults. -/
theorem c9_restart_keeps_form_witness :
    demoSession.dependents = some 3 ∧
    ((restart demoSession).step = some 1 ∧
     (restart demoSession).dependents = some 3 ∧
     (restart demoSession).education = some 1 ∧
     (restart demoSession).employed = some 1 ∧
     (restart demoSession).income = some 123 ∧
     (restart demoSession).bank_assets = some 7 ∧
     (restart demoSession).cibil = some 555 ∧
     (restart demoSession).residential = some 11 ∧
     (restart demoSession).commercial = some 12 ∧
     (restart demoSession).luxury = some 13 ∧
     (restart demoSession).loan_amt = some 999 ∧
     (restart demoSession).loan_term = some 5 ∧
     (initSession (restart demoSession)).dependents = some 3 ∧
     (initSession (restart demoSession)).education = some 1 ∧
     (initSession (restart demoSession)).employed = some 1 ∧
     (initSession (restart demoSession)).income = some 123 ∧
     (initSession (restart demoSession)).bank_assets = some 7 ∧
     (initSession (restart demoSession)).cibil = some 555 ∧
     (initSession (restart demoSession)).residential = some 11 ∧
     (initSession (restart demoSession)).commercial = some 12 ∧
     (initSession (restart demoSession)).luxury = some 13 ∧
     (initSession (restart demoSession)).loan_amt = some 999 ∧
     (initSession (restart demoSession)).loan_term = some 5) :=
  ⟨rfl,
   c9_restart_keeps_form demoSession 3 1 1 123 7 555 11 12 13 999 5
     rfl rfl rfl rfl rfl rfl rfl rfl rfl rfl rfl⟩

/-- **C10** — The decision display for a decoded label is two-valued:
the APPROVED card is shown exactly when the stripped label equals
"Approved", and every other label — including labels outside the
{Approved, Rejected} enumeration — gets the REJECTED card. -/
theorem c10_status_branch (status : String) :
    (statusCard status = UIEvent.approvedCard ↔ strip status = "Approved") ∧
    (statusCard status = UIEvent.approvedCard ∨
     statusCard status = UIEvent.rejectedCard) := by
  unfold statusCard
  by_cases h : strip status = "Approved" <;> simp [h]

end LoanApp
